import Mathlib

/-!
Shallow embedding of the protekt-docs repository pieces that carry logic:

* `src/src/components/HomepageFeatures/index.tsx` — the feature-list
  renderer (`FeatureList`, `Feature`, `HomepageFeatures`), embedded as pure
  functions from feature descriptors to a virtual-DOM tree (`Node`).
* the Docusaurus site configuration (`docusaurus.config.ts`) — embedded as a
  Lean structure `Config`, parameterized on the year the configuration object
  is evaluated, because its footer copyright string interpolates the value of
  the clock at evaluation time.
-/

namespace ProtektDocs

/-- A rendered virtual-DOM node: text, an element (tag or component type,
attribute list, children), or a keyed child as produced by a JSX `key` prop. -/
inductive Node where
  | text (s : String)
  | elem (tag : String) (attrs : List (String × String)) (children : List Node)
  | keyed (key : Nat) (child : Node)

/-- The FeatureItem record of index.tsx: a title string, a reference to an
SVG asset component, and a description (a JSX text fragment, embedded as the
text it contains). -/
structure FeatureItem where
  title : String
  Svg : String
  description : String
deriving Repr, DecidableEq

/-- The constant FeatureList of index.tsx: three feature descriptors. -/
def FeatureList : List FeatureItem :=
  [ { title := "Easy Integration",
      Svg := "@site/static/img/undraw_docusaurus_mountain.svg",
      description := "Protekt was designed from the ground up to be easily integrated into any application. Get secure authentication up and running in under 30 minutes." },
    { title := "Focus on Your Product",
      Svg := "@site/static/img/undraw_docusaurus_tree.svg",
      description := "Protekt handles all the complex authentication logic, so you can focus on building amazing features. We\x27ll take care of security and compliance." },
    { title := "Developer-First APIs",
      Svg := "@site/static/img/undraw_docusaurus_react.svg",
      description := "Built with developers in mind. Clean REST APIs, comprehensive SDKs, and detailed documentation to get you started quickly." } ]

/-- The Feature component of index.tsx: one block per descriptor, a div of
class "col col--4" holding a centered icon region (the Svg component with a
role annotation) and a centered text region (a Heading rendered as h3 with the
title, then a paragraph with the description). -/
def Feature (item : FeatureItem) : Node :=
  .elem "div" [("className", "col col--4")]
    [ .elem "div" [("className", "text--center")]
        [ .elem item.Svg [("className", "featureSvg"), ("role", "img")] [] ],
      .elem "div" [("className", "text--center padding-horiz--md")]
        [ .elem "Heading" [("as", "h3")] [.text item.title],
          .elem "p" [] [.text item.description] ] ]

/-- The row contents of HomepageFeatures: FeatureList.map((props, idx) =>
Feature with key idx), generalized over the input sequence as the spec
requires the operation to accept any non-negative-length sequence. -/
def featureBlocks (fs : List FeatureItem) : List Node :=
  fs.mapIdx fun idx props => .keyed idx (Feature props)

/-- The HomepageFeatures component of index.tsx, generalized over its input
sequence: a section of class "features" holding a container div holding a row
div whose children are the keyed feature blocks. It is a total function: no
input sequence is an error. -/
def renderFeatures (fs : List FeatureItem) : Node :=
  .elem "section" [("className", "features")]
    [ .elem "div" [("className", "container")]
        [ .elem "div" [("className", "row")] (featureBlocks fs) ] ]

/-- The default export of index.tsx: the renderer applied to the constant
FeatureList. -/
def HomepageFeatures : Node := renderFeatures FeatureList

/-- Recovers the children of the row div from the output of the renderer. -/
def rowOf : Node → List Node
  | .elem _ _ [.elem _ _ [.elem _ _ blocks]] => blocks
  | _ => []

/-- Looks up an attribute value by key in an attribute list. -/
def attrOf (attrs : List (String × String)) (key : String) : Option String :=
  (attrs.find? fun p => p.1 == key).map fun p => p.2

/-- Whether an attribute list carries a given key-value pair. -/
def hasAttr (attrs : List (String × String)) (key val : String) : Bool :=
  attrs.any fun p => p.1 == key && p.2 == val

mutual

/-- The text content of a node, in document order. -/
def textContent : Node → List String
  | .text s => [s]
  | .keyed _ c => textContent c
  | .elem _ _ cs => textContentOfList cs

/-- The text content of a list of nodes, in document order. -/
def textContentOfList : List Node → List String
  | [] => []
  | c :: cs => textContent c ++ textContentOfList cs

end

/-- A piece of displayed content: an image/graphic region carrying the
accessible role annotation "img" (recorded with its asset), a heading
(recorded with its level and text), or a body paragraph. -/
inductive Piece where
  | icon (asset : String)
  | heading (level : String) (body : List String)
  | para (body : List String)
deriving Repr, DecidableEq

mutual

/-- The displayed content of a node in document order: elements annotated
with role "img" are image regions, Heading components are headings at the
level of their "as" prop, p elements are body paragraphs. -/
def outline : Node → List Piece
  | .text _ => []
  | .keyed _ c => outline c
  | .elem tag attrs cs =>
      if hasAttr attrs "role" "img" then [.icon tag]
      else if tag == "Heading" then [.heading ((attrOf attrs "as").getD "") (textContentOfList cs)]
      else if tag == "p" then [.para (textContentOfList cs)]
      else outlineOfList cs

/-- The displayed content of a list of nodes, in document order. -/
def outlineOfList : List Node → List Piece
  | [] => []
  | c :: cs => outline c ++ outlineOfList cs

end

/-- The headings of a node in document order, each with its level and text. -/
def headingsOf (n : Node) : List (String × List String) :=
  (outline n).filterMap fun p =>
    match p with
    | .heading lvl b => some (lvl, b)
    | _ => none

/-- The body paragraphs of a node, in document order. -/
def parasOf (n : Node) : List (List String) :=
  (outline n).filterMap fun p =>
    match p with
    | .para b => some b
    | _ => none

/-- The image/graphic regions of a node that carry the accessible role
annotation "img", in document order, each recorded by its asset. -/
def iconsOf (n : Node) : List String :=
  (outline n).filterMap fun p =>
    match p with
    | .icon a => some a
    | _ => none

/-- The first child of an element node. -/
def firstChild : Node → Option Node
  | .elem _ _ (c :: _) => some c
  | _ => none

/-- The className attribute of an element node. -/
def classOf : Node → Option String
  | .elem _ attrs _ => attrOf attrs "className"
  | _ => none

/-- The value of the onBrokenLinks / onBrokenMarkdownLinks configuration
fields of docusaurus.config.ts. -/
inductive BrokenLinkAction where
  | throw
  | warn
  | ignore
deriving Repr, DecidableEq, BEq

/-- The i18n block of docusaurus.config.ts. -/
structure I18nConfig where
  defaultLocale : String
  locales : List String
deriving Repr, DecidableEq, BEq

/-- The docs options of the classic preset. -/
structure DocsOptions where
  sidebarPath : String
  editUrl : String
deriving Repr, DecidableEq, BEq

/-- The feedOptions block of the blog options. -/
structure FeedOptions where
  type : List String
  xslt : Bool
deriving Repr, DecidableEq, BEq

/-- The blog options of the classic preset. -/
structure BlogOptions where
  showReadingTime : Bool
  feedOptions : FeedOptions
  editUrl : String
  onInlineTags : String
  onInlineAuthors : String
  onUntruncatedBlogPosts : String
deriving Repr, DecidableEq, BEq

/-- The theme options of the classic preset. -/
structure ThemeOptions where
  customCss : String
deriving Repr, DecidableEq, BEq

/-- The option object of the classic preset entry. -/
structure PresetOptions where
  docs : DocsOptions
  blog : BlogOptions
  theme : ThemeOptions
deriving Repr, DecidableEq, BEq

/-- The options object passed to the docusaurus-search-local plugin: its ten
recognized options, six booleans, two integers, a locale-code list and a
path-pattern list. -/
structure SearchLocalOptions where
  indexDocs : Bool
  indexBlog : Bool
  indexPages : Bool
  searchResultLimits : Int
  searchResultContextMaxLength : Int
  explicitSearchResultPath : Bool
  language : List String
  useAllContextsWithNoSearchContext : Bool
  ignoreFiles : List String
  removeDefaultStopWordFilter : Bool
deriving Repr, DecidableEq, BEq

/-- A nested link of a navbar dropdown or a footer link group: a label with a
target URL or path (the to or href field). -/
structure NavLink where
  label : String
  target : String
deriving Repr, DecidableEq, BEq

/-- An entry of the navbar items list or the footer links list, in the shapes
the configuration actually uses: a direct link (label plus to/href target), a
grouping (dropdown label or footer category title plus nested links), a
docSidebar entry (label plus sidebar id), or the search-box entry. -/
inductive NavEntry where
  | link (label target : String) (position : Option String)
  | group (label : String) (position : Option String) (items : List NavLink)
  | docSidebar (label sidebarId position : String)
  | search (position : String)
deriving Repr, DecidableEq, BEq

/-- The navbar logo block. -/
structure LogoConfig where
  alt : String
  src : String
deriving Repr, DecidableEq, BEq

/-- The navbar block of themeConfig. -/
structure NavbarConfig where
  title : String
  logo : LogoConfig
  items : List NavEntry
deriving Repr, DecidableEq, BEq

/-- The footer block of themeConfig. -/
structure FooterConfig where
  style : String
  links : List NavEntry
  copyright : String
deriving Repr, DecidableEq, BEq

/-- The prism block of themeConfig, naming the light and dark code themes. -/
structure PrismConfig where
  theme : String
  darkTheme : String
deriving Repr, DecidableEq, BEq

/-- The themeConfig block of docusaurus.config.ts. -/
structure ThemeConfig where
  image : String
  navbar : NavbarConfig
  footer : FooterConfig
  prism : PrismConfig
deriving Repr, DecidableEq, BEq

/-- The site configuration object of docusaurus.config.ts. -/
structure Config where
  title : String
  tagline : String
  favicon : String
  futureV4 : Bool
  url : String
  baseUrl : String
  organizationName : String
  projectName : String
  onBrokenLinks : BrokenLinkAction
  onBrokenMarkdownLinks : BrokenLinkAction
  i18n : I18nConfig
  presets : List (String × PresetOptions)
  plugins : List (String × SearchLocalOptions)
  themeConfig : ThemeConfig
deriving Repr, DecidableEq, BEq

/-- The search plugin options of docusaurus.config.ts lines 72-98. -/
def searchLocalOptions : SearchLocalOptions :=
  { indexDocs := true
    indexBlog := true
    indexPages := false
    searchResultLimits := 8
    searchResultContextMaxLength := 50
    explicitSearchResultPath := true
    language := ["en"]
    useAllContextsWithNoSearchContext := false
    ignoreFiles := ["(?:^|/)_"]
    removeDefaultStopWordFilter := true }

/-- The navbar items of docusaurus.config.ts lines 109-145. -/
def navbarItems : List NavEntry :=
  [ .docSidebar "Documentation" "tutorialSidebar" "left",
    .group "API" (some "left")
      [ { label := "API Reference", target := "/docs/api/authentication" },
        { label := "SDKs", target := "/docs/sdks/javascript" } ],
    .search "right",
    .link "GitHub" "https://github.com/protekt/protekt-docs" (some "right"),
    .link "Dashboard" "https://dashboard.protekt.dev" (some "right") ]

/-- The footer links of docusaurus.config.ts lines 149-189. -/
def footerLinks : List NavEntry :=
  [ .group "Docs" none
      [ { label := "Tutorial", target := "/docs/intro" } ],
    .group "Community" none
      [ { label := "Stack Overflow", target := "https://stackoverflow.com/questions/tagged/docusaurus" },
        { label := "Discord", target := "https://discordapp.com/invite/docusaurus" },
        { label := "X", target := "https://x.com/docusaurus" } ],
    .group "More" none
      [ { label := "Blog", target := "/blog" },
        { label := "GitHub", target := "https://github.com/facebook/docusaurus" } ] ]

/-- The configuration object of docusaurus.config.ts as evaluated when the
current year is the given one: every field is a literal except the footer
copyright, whose template literal interpolates new Date().getFullYear(), the
year of the clock at evaluation time. The copyright text reproduces the
source bytes, which spell the copyright sign as the two characters seen
here. -/
def configAt (year : Nat) : Config :=
  { title := "Protekt Developer Documentation"
    tagline := "Secure authentication made simple for developers"
    favicon := "img/favicon.ico"
    futureV4 := true
    url := "https://dickson-mwendia.github.io"
    baseUrl := "/protekt-docs/"
    organizationName := "Dickson-Mwendia"
    projectName := "protekt-docs"
    onBrokenLinks := .throw
    onBrokenMarkdownLinks := .warn
    i18n := { defaultLocale := "en", locales := ["en"] }
    presets :=
      [ ("classic",
         { docs :=
             { sidebarPath := "./sidebars.ts",
               editUrl := "https://github.com/protekt/protekt-docs/tree/main/" },
           blog :=
             { showReadingTime := true,
               feedOptions := { type := ["rss", "atom"], xslt := true },
               editUrl := "https://github.com/facebook/docusaurus/tree/main/packages/create-docusaurus/templates/shared/",
               onInlineTags := "warn",
               onInlineAuthors := "warn",
               onUntruncatedBlogPosts := "warn" },
           theme := { customCss := "./src/css/custom.css" } }) ]
    plugins := [("@easyops-cn/docusaurus-search-local", searchLocalOptions)]
    themeConfig :=
      { image := "img/docusaurus-social-card.jpg",
        navbar :=
          { title := "Protekt",
            logo := { alt := "Protekt Logo", src := "img/logo.svg" },
            items := navbarItems },
        footer :=
          { style := "dark",
            links := footerLinks,
            copyright := "Copyright Â© " ++ toString year ++ " Protekt Dev" },
        prism := { theme := "github", darkTheme := "dracula" } } }

/-- The configuration with its one clock-dependent field blanked: used to
state that every other field is a constant. -/
def eraseCopyright (c : Config) : Config :=
  { c with
    themeConfig :=
      { c.themeConfig with
        footer := { c.themeConfig.footer with copyright := "" } } }

/-- Modelled from the spec: the external framework aborts the build when a
broken link is found under the throw policy (fail-fast); under the warn
policy the build continues. The framework implementing the policy is not part
of this repository. -/
def abortsBuild : BrokenLinkAction → Bool
  | .throw => true
  | .warn => false
  | .ignore => false

/-- Modelled from the spec: the external framework emits a warning for a
broken link under the warn policy; under throw it aborts instead, and under
ignore it stays silent. -/
def emitsWarning : BrokenLinkAction → Bool
  | .throw => false
  | .warn => true
  | .ignore => false

/-- The spec predicate on navigation entries: a direct link carries a label
together with a target URL or path, and a grouping carries nested entries.
The docSidebar entry targets a sidebar id rather than a URL or path, and the
search entry carries neither label nor target, so neither shape satisfies
it. -/
def isDirectLinkOrGrouping : NavEntry → Bool
  | .link .. => true
  | .group .. => true
  | .docSidebar .. => false
  | .search .. => false

/-- Whether an entry is a grouping. -/
def isGrouping : NavEntry → Bool
  | .group .. => true
  | _ => false

/-- The ambient state a render pass could observe: the clock and a source of
randomness. -/
structure RenderEnv where
  timeMillis : Nat
  randomSeed : Nat

/-- The HomepageFeatures renderer as invoked in a render pass carrying the
ambient environment: the source body reads neither the clock nor any
randomness nor any mutable state, only its input sequence, so the
environment is ignored. -/
def renderFeaturesIn (_env : RenderEnv) (fs : List FeatureItem) : Node :=
  renderFeatures fs

end ProtektDocs


namespace ProtektDocs

/-- C1: for every ordered sequence of feature descriptors, the renderer
produces exactly one output block per descriptor, and the block at each
index is the block of the descriptor at that index, so blocks appear in
exactly the input order. -/
theorem renderFeatures_block_count_and_order (fs : List FeatureItem) (i : Nat)
    (h : i < fs.length) :
    (rowOf (renderFeatures fs)).length = fs.length ∧
    (rowOf (renderFeatures fs))[i]? = some (.keyed i (Feature fs[i])) := by
  refine ⟨?_, ?_⟩
  · show (featureBlocks fs).length = fs.length
    simp [featureBlocks]
  · show (featureBlocks fs)[i]? = _
    have h' : i < (featureBlocks fs).length := by
      simpa [featureBlocks] using h
    rw [List.getElem?_eq_getElem h']
    have hg := List.get_mapIdx fs (fun idx props => Node.keyed idx (Feature props)) i h
    simp only [featureBlocks, List.get_eq_getElem] at hg ⊢
    rw [hg]

/-- Witness for C1 at the constant FeatureList and index 1. -/
theorem renderFeatures_block_count_and_order_witness :
    (rowOf (renderFeatures FeatureList)).length = FeatureList.length ∧
    (rowOf (renderFeatures FeatureList))[1]? =
      some (.keyed 1 (Feature (FeatureList.get ⟨1, by decide⟩))) :=
  renderFeatures_block_count_and_order FeatureList 1 (by decide)

/-- C2: every block displays the title verbatim as its only heading, the
description verbatim as its only body paragraph, and its only image/graphic
region is the icon asset carrying the accessible role annotation. -/
theorem feature_block_fields_verbatim (d : FeatureItem) :
    headingsOf (Feature d) = [("h3", [d.title])] ∧
    parasOf (Feature d) = [[d.description]] ∧
    iconsOf (Feature d) = [d.Svg] := by
  refine ⟨?_, ?_, ?_⟩ <;>
    simp [headingsOf, parasOf, iconsOf, Feature, outline, outlineOfList,
      textContent, textContentOfList, hasAttr, attrOf]

/-- C3: broken internal links are configured with the throw policy, which
aborts the build, while broken Markdown links are configured with the warn
policy, which only emits a warning and is non-fatal; the two severities are
distinct. Holds at every evaluation-time year. -/
theorem broken_link_policy (y : Nat) :
    (configAt y).onBrokenLinks = .throw ∧
    (configAt y).onBrokenMarkdownLinks = .warn ∧
    abortsBuild (configAt y).onBrokenLinks = true ∧
    abortsBuild (configAt y).onBrokenMarkdownLinks = false ∧
    emitsWarning (configAt y).onBrokenMarkdownLinks = true ∧
    ((configAt y).onBrokenLinks == (configAt y).onBrokenMarkdownLinks) = false :=
  ⟨rfl, rfl, rfl, rfl, rfl, rfl⟩

/-- C4 counterexample: evaluating the configuration object in 2024 and in
2025 yields structurally different objects, because the footer copyright
interpolates the year of the clock at evaluation time. -/
theorem config_clock_dependent :
    ((configAt 2024) == (configAt 2025)) = false ∧
    (configAt 2024).themeConfig.footer.copyright = "Copyright Â© 2024 Protekt Dev" ∧
    (configAt 2025).themeConfig.footer.copyright = "Copyright Â© 2025 Protekt Dev" :=
  ⟨by decide, rfl, rfl⟩

/-- C4 amended: every field of the configuration other than the footer
copyright is a literal constant, independent of the evaluation time; the
copyright is the fixed template with the evaluation-time year
interpolated. -/
theorem config_constant_except_copyright (y₁ y₂ : Nat) :
    eraseCopyright (configAt y₁) = eraseCopyright (configAt y₂) ∧
    (configAt y₁).themeConfig.footer.copyright =
      "Copyright Â© " ++ toString y₁ ++ " Protekt Dev" :=
  ⟨rfl, rfl⟩

/-- C5 counterexample: not every navbar entry is a direct link or a
grouping: the entry at index 2 is the search-box entry, which carries
neither a label with a target URL/path nor nested entries. -/
theorem navbar_entry_not_link_or_grouping :
    navbarItems.all isDirectLinkOrGrouping = false ∧
    navbarItems[2]? = some (.search "right") ∧
    isDirectLinkOrGrouping (.search "right") = false :=
  ⟨by decide, by decide, by decide⟩

/-- C5 amended: every footer entry is a grouping, and the only navbar
entries that are neither direct links nor groupings are the docs-sidebar
entry (a label with a sidebar reference rather than a URL/path) and the
search-box entry. -/
theorem nav_footer_entry_shapes :
    (navbarItems.filter fun e => !(isDirectLinkOrGrouping e)) =
      [.docSidebar "Documentation" "tutorialSidebar" "left", .search "right"] ∧
    footerLinks.all isGrouping = true :=
  ⟨by decide, by decide⟩

/-- C6: the renderer is pure and deterministic: two invocations on the same
input sequence, under arbitrary and possibly different ambient environments
(clock, randomness), produce structurally identical output, equal to the
pure function of the input sequence alone. -/
theorem renderFeatures_pure (e₁ e₂ : RenderEnv) (fs : List FeatureItem) :
    renderFeaturesIn e₁ fs = renderFeaturesIn e₂ fs ∧
    renderFeaturesIn e₁ fs = renderFeatures fs :=
  ⟨rfl, rfl⟩

/-- C7: the empty input sequence is not an error: the renderer is total and
on zero descriptors returns the section/container/row skeleton with an
empty row, that is, zero blocks. -/
theorem renderFeatures_empty_input :
    renderFeatures [] =
      .elem "section" [("className", "features")]
        [ .elem "div" [("className", "container")]
            [ .elem "div" [("className", "row")] [] ] ] ∧
    rowOf (renderFeatures []) = [] :=
  ⟨rfl, rfl⟩

/-- C8: the constant FeatureList is a fixed sequence of exactly three
descriptors, each with a non-empty title and a non-empty description. -/
theorem featureList_three_nonempty :
    FeatureList.length = 3 ∧
    FeatureList.all (fun d => !(d.title == "") && !(d.description == "")) = true :=
  ⟨by decide, by decide⟩

/-- C9: the search plugin is registered with exactly the ten recognized
options, with the boolean, integer and list values taken from the source;
the option record is independent of the evaluation-time year. -/
theorem search_plugin_options_values (y : Nat) :
    (configAt y).plugins = [("@easyops-cn/docusaurus-search-local", searchLocalOptions)] ∧
    searchLocalOptions.indexDocs = true ∧
    searchLocalOptions.indexBlog = true ∧
    searchLocalOptions.indexPages = false ∧
    searchLocalOptions.searchResultLimits = 8 ∧
    searchLocalOptions.searchResultContextMaxLength = 50 ∧
    searchLocalOptions.explicitSearchResultPath = true ∧
    searchLocalOptions.language = ["en"] ∧
    searchLocalOptions.useAllContextsWithNoSearchContext = false ∧
    searchLocalOptions.ignoreFiles = ["(?:^|/)_"] ∧
    searchLocalOptions.removeDefaultStopWordFilter = true :=
  ⟨rfl, rfl, rfl, rfl, rfl, rfl, rfl, rfl, rfl, rfl, rfl⟩

/-- C10: the displayed content of every block, in document order, is the
icon region first, then the title as a level-h3 heading, then the
description paragraph, independent of the descriptor values; and the first
child of the block is the centered region that wraps the icon. -/
theorem feature_block_internal_layout (d : FeatureItem) :
    outline (Feature d) =
      [.icon d.Svg, .heading "h3" [d.title], .para [d.description]] ∧
    (firstChild (Feature d)).bind classOf = some "text--center" := by
  refine ⟨?_, ?_⟩ <;>
    simp [Feature, outline, outlineOfList, textContent, textContentOfList,
      hasAttr, attrOf, firstChild, classOf, Option.bind]

end ProtektDocs
